import Mathlib

/-
Verification development for the Igris terminal agent repository.

The definitions below are a shallow embedding of src/memory.py,
src/ingest_workflow.py and src/document_loader.py.  A file system is
modelled as a function from path strings to optional file contents;
Python text is modelled as Lean strings or lists of characters; the
LangGraph ingestion graph is modelled as an explicit stage sequence with
the routing functions of the source.
-/

namespace Igris
/-! ## Durable memory store (src/memory.py) -/

/-- Content of a serialized (pickled) file on disk: either a complete,
deserializable payload of type alpha, or an unreadable / partially
written one. -/
inductive MemFile (α : Type) where
  | corrupt : MemFile α
  | valid : α → MemFile α
deriving DecidableEq

/-- A file-system fragment: maps a path to the file stored there, if any. -/
def FS (α : Type) : Type := String → Option (MemFile α)

/-- Overwrite (or, with none, remove) the entry at path p. -/
def fsSet (fs : FS α) (p : String) (c : Option (MemFile α)) : FS α :=
  fun q => if q = p then c else fs q

/-- The sequence of observable file-system states during
memory._atomic_write fs tmp path data:
state 0: before the call;
state 1: tempfile.mkstemp has created the (empty, hence not yet
deserializable) temporary file;
state 2: pickle.dump is in progress, the temporary file holds an
arbitrary partial serialization mid;
state 3: dump, flush and fsync are complete, the temporary file holds the
full payload;
state 4: os.replace has atomically renamed the temporary file onto path.
The except-branch of the source (unlink of the temporary file and
re-raise) also touches only tmp, never path. -/
def atomicWriteTrace (fs : FS α) (tmp path : String) (mid : MemFile α) (data : α) :
    List (FS α) :=
  let s1 := fsSet fs tmp (some MemFile.corrupt)
  let s2 := fsSet s1 tmp (some mid)
  let s3 := fsSet s2 tmp (some (MemFile.valid data))
  let s4 := fsSet (fsSet s3 tmp none) path (some (MemFile.valid data))
  [fs, s1, s2, s3, s4]

/-- Overall file-system effect of memory._atomic_write: the temporary file
is gone and path holds the complete new payload. -/
def atomic_write (fs : FS α) (tmp path : String) (data : α) : FS α :=
  fsSet (fsSet fs tmp none) path (some (MemFile.valid data))

/-- Boolean check that a file-system state holds, at path, either the old
content old or the complete new payload data. -/
def targetOK [DecidableEq α] (s : FS α) (path : String) (old : Option (MemFile α))
    (data : α) : Bool :=
  decide (s path = old) || decide (s path = some (MemFile.valid data))

/-- memory.save_memory fs backupOk tmp path msgs: if a file exists at
path, best-effort copy it to path ++ ".bak" (backupOk false models the
copy raising OSError), then atomically write the new snapshot msgs to
path.  The second component collects the log lines the call prints: the
body of save_memory contains no print call at all — in particular the
except OSError branch is a bare pass — so it is empty on every path,
whether or not the backup copy succeeded. -/
def save_memory (fs : FS α) (backupOk : Bool) (tmp path : String) (msgs : α) :
    FS α × List String :=
  let fs1 : FS α :=
    match fs path with
    | some c => if backupOk then fsSet fs (path ++ ".bak") (some c) else fs
    | none => fs
  (atomic_write fs1 tmp path msgs, [])

/-- Result of memory.load_memory: the snapshot together with which source
produced it (fromBackup records the "restored from backup" log line,
fresh the "Starting with fresh memory vault." line). -/
inductive LoadOutcome (α : Type) where
  | fromPrimary : α → LoadOutcome α
  | fromBackup : α → LoadOutcome α
  | fresh : LoadOutcome α
deriving DecidableEq

/-- True when the optional file at hand exists and deserializes. -/
def usable : Option (MemFile α) → Bool
  | some (MemFile.valid _) => true
  | _ => false

/-- memory.load_memory fs path: try path, then path ++ ".bak", returning a
fresh empty snapshot when both are missing or corrupt.  A missing file is
skipped by the loop guard, a corrupt one by the except branch; the
function is total, so no failure propagates to the caller. -/
def load_memory (fs : FS α) (path : String) : LoadOutcome α :=
  match fs path with
  | some (MemFile.valid d) => LoadOutcome.fromPrimary d
  | _ =>
    match fs (path ++ ".bak") with
    | some (MemFile.valid d) => LoadOutcome.fromBackup d
    | _ => LoadOutcome.fresh

/-- A file system whose primary memory file is present and deserializable. -/
def memFsPrimary : FS Nat :=
  fun q => if q = "mem.pkl" then some (MemFile.valid 1) else none

/-- A file system whose primary memory file is corrupt but whose backup
deserializes. -/
def memFsBackup : FS Nat :=
  fun q =>
    if q = "mem.pkl" then some MemFile.corrupt
    else if q = "mem.pkl.bak" then some (MemFile.valid 2) else none

/-- A file system with a corrupt primary file and no backup. -/
def memFsBad : FS Nat :=
  fun q => if q = "mem.pkl" then some MemFile.corrupt else none

/-! ## Character text splitter

node_chunk_documents builds
CharacterTextSplitter(chunk_size=800, chunk_overlap=120) and calls
split_documents.  The splitter (langchain.text_splitter) splits each text
on the default separator "\n\n" (re.split on the escaped separator,
empty pieces dropped) and then greedily merges the pieces back into
chunks of at most chunk_size characters, carrying at most chunk_overlap
characters of trailing pieces over into the next chunk; joined chunks are
stripped of surrounding whitespace and empty ones dropped.  Text is
modelled as List Char. -/

/-- Python str.strip on a character list. -/
def pyStripChars (cs : List Char) : List Char :=
  ((cs.dropWhile Char.isWhitespace).reverse.dropWhile Char.isWhitespace).reverse

/-- Split a character list on the two-character separator newline-newline,
scanning left to right, non-overlapping (re.split with the escaped
default separator). -/
def splitOnSep : List Char → List Char → List (List Char)
  | acc, [] => [acc.reverse]
  | acc, [c] => [(c :: acc).reverse]
  | acc, c1 :: c2 :: rest =>
    if c1 = '\n' ∧ c2 = '\n' then acc.reverse :: splitOnSep [] rest
    else splitOnSep (c1 :: acc) (c2 :: rest)

/-- TextSplitter._join_docs: join the pending pieces with the separator,
strip whitespace, and drop the chunk when it is empty. -/
def joinDocs (sep : List Char) (ds : List (List Char)) : Option (List Char) :=
  let text := pyStripChars (List.intercalate sep ds)
  if text = [] then none else some text

/-- The inner while-loop of TextSplitter._merge_splits: pop leading pieces
from the pending window while the running total exceeds the overlap, or
while adding the next piece (of length dl) would still exceed the chunk
size. -/
def popWhile (sepLen ov cs dl : Int) : List (List Char) → Int → List (List Char) × Int
  | [], total => ([], total)
  | d0 :: rest, total =>
    if total > ov ∨ (total + dl + sepLen > cs ∧ total > 0) then
      popWhile sepLen ov cs dl rest
        (total - ((d0.length : Int) + (if rest ≠ [] then sepLen else 0)))
    else (d0 :: rest, total)

/-- One iteration of the loop body of TextSplitter._merge_splits: the
accumulator carries the emitted chunks, the pending window and its
running length; d is the next separator-split piece. -/
def mergeStep (sepLen ov cs : Int) (sep : List Char)
    (st : List (List Char) × List (List Char) × Int) (d : List Char) :
    List (List Char) × List (List Char) × Int :=
  let docs := st.1
  let currentDoc := st.2.1
  let total := st.2.2
  let dl : Int := d.length
  let step :=
    if total + dl + (if currentDoc ≠ [] then sepLen else 0) > cs then
      if currentDoc ≠ [] then
        let docs2 :=
          match joinDocs sep currentDoc with
          | some doc => docs ++ [doc]
          | none => docs
        let popped := popWhile sepLen ov cs dl currentDoc total
        (docs2, popped.1, popped.2)
      else (docs, currentDoc, total)
    else (docs, currentDoc, total)
  (step.1, step.2.1 ++ [d],
    step.2.2 + dl + (if step.2.1 ≠ [] then sepLen else 0))

/-- After the loop, TextSplitter._merge_splits joins the remaining pending
window into a final chunk. -/
def mergeFinish (sep : List Char) (st : List (List Char) × List (List Char) × Int) :
    List (List Char) :=
  match joinDocs sep st.2.1 with
  | some doc => st.1 ++ [doc]
  | none => st.1

/-- TextSplitter._merge_splits as a fold of the loop body over the pieces. -/
def mergeSplits (sepLen ov cs : Int) (sep : List Char)
    (splits : List (List Char)) : List (List Char) :=
  mergeFinish sep (splits.foldl (mergeStep sepLen ov cs sep) ([], [], 0))

/-- CharacterTextSplitter(chunk_size, chunk_overlap).split_text with the
default separator "\n\n". -/
def character_split_text (chunkSize chunkOverlap : Int) (text : List Char) :
    List (List Char) :=
  let sep : List Char := ['\n', '\n']
  let splits := (splitOnSep [] text).filter (fun s => s ≠ [])
  mergeSplits (sep.length : Int) chunkOverlap chunkSize sep splits

/-! ## Ingestion pipeline (src/ingest_workflow.py) -/

/-- A LangChain document: page content plus source metadata. -/
structure Doc where
  content : List Char
  source : String
deriving DecidableEq

/-- SUPPORTED_EXTENSIONS of src/ingest_workflow.py. -/
def SUPPORTED_EXTENSIONS : List String :=
  [".txt", ".md", ".csv", ".json", ".log", ".py", ".html", ".pdf", ".docx"]

/-- Python str.lower. -/
def pyLower (s : String) : String := String.mk (s.data.map Char.toLower)

/-- Python str.strip. -/
def pyStrip (s : String) : String := String.mk (pyStripChars s.data)

/-- Python str.rstrip with the slash character. -/
def pyRstripSlash (s : String) : String :=
  String.mk ((s.data.reverse.dropWhile (fun c => c = '/')).reverse)

/-- What each format-specific reader would produce for one on-disk file:
the utf-8 text (decode errors ignored), the per-page texts a PDF parser
would extract (none models a page whose extract_text returns None), and
the text a DOCX extractor would produce. -/
structure FileBytes where
  rawText : String
  pdfPages : List (Option String)
  docxText : Option String
deriving DecidableEq

/-- One file on disk: its path, its extension (path.suffix) and its data. -/
structure FileEntry where
  path : String
  suffix : String
  bytes : FileBytes
deriving DecidableEq

/-- The file-system object at the input path of a request: a single file,
or a directory together with the files its recursive glob enumerates. -/
inductive PyPath where
  | file : FileEntry → PyPath
  | dir : List FileEntry → PyPath
deriving DecidableEq

/-- _iter_paths: a file path is returned as a singleton with no extension
check; a directory is filtered to the supported (lower-cased) extensions. -/
def iter_paths : PyPath → List FileEntry
  | PyPath.file e => [e]
  | PyPath.dir es =>
    es.filter (fun e => SUPPORTED_EXTENSIONS.contains (pyLower e.suffix))

/-- _read_pdf: per page extract_text() or "", pages joined by one newline,
the whole joined text stripped — a single string for the whole file. -/
def read_pdf_pages (pages : List (Option String)) : String :=
  pyStrip (String.intercalate "\n" (pages.map (fun p => p.getD "")))

/-- Ambient collaborators of one ingestion request: the file system at the
input path, availability of the optional decoder and cloud libraries, the
outcome an S3 upload would have, the text of the import failure, and the
fresh directory tempfile.mkdtemp would create. -/
structure Env where
  inputPath : Option PyPath
  pypdfAvailable : Bool
  docx2txtAvailable : Bool
  boto3Available : Bool
  boto3ImportMsg : String
  uploadError : Option String
  freshTempDir : String

/-- _read_file: dispatch on the lower-cased extension; .pdf and .docx
need their optional libraries (the raised RuntimeError message is the
error value); every other extension is read as utf-8 text. -/
def read_file (env : Env) (e : FileEntry) : Except String String :=
  let sfx := pyLower e.suffix
  if sfx = ".pdf" then
    if env.pypdfAvailable then Except.ok (read_pdf_pages e.bytes.pdfPages)
    else Except.error "Install `pypdf` to read PDF files."
  else if sfx = ".docx" then
    if env.docx2txtAvailable then Except.ok (e.bytes.docxText.getD "")
    else Except.error "Install `docx2txt` to read DOCX files."
  else Except.ok e.bytes.rawText

/-- The loop of node_load_documents over the enumerated files: read each,
keep a document when the content has non-whitespace text, abort with the
wrapped message on the first read failure. -/
def readDocsLoop (env : Env) : List FileEntry → List Doc → Except String (List Doc)
  | [], acc => Except.ok acc
  | e :: rest, acc =>
    match read_file env e with
    | Except.error msg =>
      Except.error ("Failed reading " ++ e.path ++ ": " ++ msg)
    | Except.ok content =>
      if pyStrip content ≠ "" then
        readDocsLoop env rest (acc ++ [Doc.mk content.data e.path])
      else readDocsLoop env rest acc

/-- The documents node_load_documents collects for the request input. -/
def loadedDocs (env : Env) : Except String (List Doc) :=
  readDocsLoop env
    (match env.inputPath with
     | some p => iter_paths p
     | none => []) []

/-- The pipeline state threaded through the LangGraph stages
(IngestState); optional fields of the TypedDict are Option-valued, and
cloud_uri distinguishes never-set (none) from set-to-None (some none).
The cloud_prefix key is the cloudPref field. -/
structure PState where
  input_path : String
  memory_file : String
  docs_file : String
  bucket_name : Option String
  cloudPref : Option String
  raw_documents : List Doc
  chunks : List Doc
  vector_store : Option (List Doc)
  artifact_path : Option String
  cloud_uri : Option (Option String)
  error : Option String
  temp_dir : Option String

/-- A persisted artifact on disk: absent, present but failing to
deserialize / open, or present with the given content. -/
inductive Persisted (β : Type) where
  | absent : Persisted β
  | corrupt : Persisted β
  | stored : β → Persisted β
deriving DecidableEq

/-- The on-disk world an ingestion request mutates: the FAISS vector
indexes (modelled by the list of documents they index), the pickled chunk
stores, and the temporary directories currently on disk. -/
structure World where
  vi : String → Persisted (List Doc)
  cs : String → Persisted (List Doc)
  tempDirs : List String

/-- Overwrite the vector index stored at path k. -/
def setVi (w : World) (k : String) (v : Persisted (List Doc)) : World :=
  { w with vi := fun q => if q = k then v else w.vi q }

/-- Overwrite the chunk store stored at path k. -/
def setCs (w : World) (k : String) (v : Persisted (List Doc)) : World :=
  { w with cs := fun q => if q = k then v else w.cs q }

/-- node_validate_input: error when the input path does not exist; no
other state or world change. -/
def node_validate_input (env : Env) (s : PState) (w : World) : PState × World :=
  match env.inputPath with
  | some _ => (s, w)
  | none => ({ s with error := some ("Input path not found: " ++ s.input_path) }, w)

/-- node_load_documents: enumerate and read files; an empty result is an
error, otherwise the documents are stored in the state. -/
def node_load_documents (env : Env) (s : PState) (w : World) : PState × World :=
  match loadedDocs env with
  | Except.error msg => ({ s with error := some msg }, w)
  | Except.ok docs =>
    if docs = [] then
      ({ s with error := some ("No readable supported documents found in: " ++ s.input_path) }, w)
    else ({ s with raw_documents := docs }, w)

/-- CharacterTextSplitter(...).split_documents: each document is split
and each chunk keeps the source metadata of its document. -/
def split_documents (docs : List Doc) : List Doc :=
  (docs.map (fun d =>
    (character_split_text 800 120 d.content).map (fun t => Doc.mk t d.source))).flatten

/-- node_chunk_documents with chunk_size=800 and chunk_overlap=120. -/
def node_chunk_documents (s : PState) (w : World) : PState × World :=
  ({ s with chunks := split_documents s.raw_documents }, w)

/-- node_build_index: open the existing index at memory_file and append
the new chunks, falling back to a fresh index from only the new chunks
when the index is absent or fails to open; persist it; then load the
existing chunk store at docs_file (treating an absent or unreadable store
as empty), append the new chunks and persist the concatenation. -/
def node_build_index (s : PState) (w : World) : PState × World :=
  let allChunks := s.chunks
  let indexed :=
    match w.vi s.memory_file with
    | Persisted.stored prior => prior ++ allChunks
    | _ => allChunks
  let existingDocs :=
    match w.cs s.docs_file with
    | Persisted.stored l => l
    | _ => []
  ({ s with vector_store := some indexed },
    setCs (setVi w s.memory_file (Persisted.stored indexed)) s.docs_file
      (Persisted.stored (existingDocs ++ allChunks)))

/-- node_prepare_artifact: create a fresh temporary directory, copy the
index and store into it (contents not tracked here) and zip it; records
the archive path and the temporary directory in the state. -/
def node_prepare_artifact (env : Env) (s : PState) (w : World) : PState × World :=
  let td := env.freshTempDir
  ({ s with artifact_path := some (td ++ "/igris_artifacts.zip"), temp_dir := some td },
    { w with tempDirs := td :: w.tempDirs })

/-- Python truthiness of the optional bucket name (None and "" are falsy). -/
def truthy : Option String → Bool
  | none => false
  | some b => b ≠ ""

/-- node_upload_to_s3: no-op when the bucket is falsy; error when boto3 is
missing or the upload raises; otherwise the s3 URI with key
prefix.rstrip(slash) ++ "/igris_artifacts.zip" (prefix defaulting to
"igris"). -/
def node_upload_to_s3 (env : Env) (s : PState) (w : World) : PState × World :=
  match s.bucket_name with
  | none => ({ s with cloud_uri := some none }, w)
  | some b =>
    if b = "" then ({ s with cloud_uri := some none }, w)
    else if env.boto3Available = false then
      ({ s with error := some ("S3 upload requested but boto3 is not installed: " ++ env.boto3ImportMsg) }, w)
    else
      let key := pyRstripSlash ((s.cloudPref).getD "igris") ++ "/igris_artifacts.zip"
      match env.uploadError with
      | some e => ({ s with error := some ("S3 upload failed: " ++ e) }, w)
      | none =>
        ({ s with cloud_uri := some (some ("s3://" ++ b ++ "/" ++ key)) }, w)

/-- node_cleanup: remove the temporary directory when it is on disk. -/
def node_cleanup (s : PState) (w : World) : PState × World :=
  match s.temp_dir with
  | some td =>
    if w.tempDirs.contains td then (s, { w with tempDirs := w.tempDirs.erase td })
    else (s, w)
  | none => (s, w)

/-- The stages of the ingestion graph, in declaration order. -/
inductive Stage where
  | validate : Stage
  | load : Stage
  | chunk : Stage
  | build : Stage
  | prepare : Stage
  | upload : Stage
  | cleanup : Stage
deriving DecidableEq

/-- The LangGraph node name of each stage. -/
def stageName : Stage → String
  | Stage.validate => "validate_input"
  | Stage.load => "load_documents"
  | Stage.chunk => "chunk_documents"
  | Stage.build => "build_index"
  | Stage.prepare => "prepare_artifact"
  | Stage.upload => "upload_to_s3"
  | Stage.cleanup => "cleanup"

/-- The LangGraph END sentinel. -/
def ENDNODE : String := "__end__"

/-- _route_on_error: route to END when the error slot is set, else to the
ok target. -/
def route_on_error (s : PState) (ok : String) : String :=
  if s.error.isSome then ENDNODE else ok

/-- The stage order wired by build_ingest_graph. -/
def stageSeq : List Stage :=
  [Stage.validate, Stage.load, Stage.chunk, Stage.build, Stage.prepare,
    Stage.upload, Stage.cleanup]

/-- The concrete node functions, as added by build_ingest_graph. -/
def nodesOf (env : Env) : Stage → PState → World → PState × World
  | Stage.validate => node_validate_input env
  | Stage.load => node_load_documents env
  | Stage.chunk => node_chunk_documents
  | Stage.build => node_build_index
  | Stage.prepare => node_prepare_artifact env
  | Stage.upload => node_upload_to_s3 env
  | Stage.cleanup => node_cleanup

/-- Execution of the compiled graph along its conditional edges: run the
stage, then follow _route_on_error towards the next stage (the last
stage, cleanup, has an unconditional edge to END); stop when the router
answers END.  Returns the final state and world and the executed trace of
stages with their post-states. -/
def runSeq (impl : Stage → PState → World → PState × World) :
    List Stage → PState → World → PState × World × List (Stage × PState)
  | [], s, w => (s, w, [])
  | st :: rest, s, w =>
    let r := impl st s w
    let target :=
      match rest with
      | [] => ENDNODE
      | nxt :: _ => route_on_error r.1 (stageName nxt)
    if target = ENDNODE then (r.1, r.2, [(st, r.1)])
    else
      let t := runSeq impl rest r.1 r.2
      (t.1, t.2.1, (st, r.1) :: t.2.2)

/-- app.invoke of the compiled ingestion graph. -/
def runGraph (impl : Stage → PState → World → PState × World)
    (s : PState) (w : World) : PState × World × List (Stage × PState) :=
  runSeq impl stageSeq s w

/-- The initial pipeline state built by run_ingestion_workflow. -/
def mkRequest (input memoryF docsF : String) (bucket : Option String)
    (pref : String) : PState :=
  { input_path := input, memory_file := memoryF, docs_file := docsF,
    bucket_name := bucket, cloudPref := some pref, raw_documents := [],
    chunks := [], vector_store := none, artifact_path := none,
    cloud_uri := none, error := none, temp_dir := none }

/-- A world with no index, no store and no temporary directory. -/
def baseWorld : World :=
  { vi := fun _ => Persisted.absent, cs := fun _ => Persisted.absent, tempDirs := [] }

/-- The content a stage can recover from a persisted artifact: the stored
list when it opens, the empty list when it is absent or corrupt. -/
def priorChunks (p : Persisted (List Doc)) : List Doc :=
  match p with
  | Persisted.stored l => l
  | _ => []

/-- An environment whose input path does not exist. -/
def envMissing : Env :=
  { inputPath := none, pypdfAvailable := true, docx2txtAvailable := true,
    boto3Available := true, boto3ImportMsg := "", uploadError := none,
    freshTempDir := "/tmp/igris_ingest_a" }

/-- An environment with one readable text file and no boto3. -/
def envNoBoto : Env :=
  { inputPath := some (PyPath.file { path := "notes.txt", suffix := ".txt", bytes := { rawText := "hi", pdfPages := [], docxText := none } }),
    pypdfAvailable := true, docx2txtAvailable := true, boto3Available := false,
    boto3ImportMsg := "No module named boto3", uploadError := none,
    freshTempDir := "/tmp/igris_ingest_b" }

/-- A world where both persisted artifacts fail to open. -/
def corruptWorld : World :=
  { vi := fun _ => Persisted.corrupt, cs := fun _ => Persisted.corrupt, tempDirs := [] }

/-- A world where both persisted artifacts hold one prior chunk. -/
def storedWorld : World :=
  { vi := fun _ => Persisted.stored [Doc.mk "p".data "old.txt"],
    cs := fun _ => Persisted.stored [Doc.mk "p".data "old.txt"], tempDirs := [] }

/-- A request state carrying one new chunk into build_index. -/
def buildReq : PState :=
  { mkRequest "in.txt" "m.faiss" "d.pkl" none "igris" with chunks := [Doc.mk "n".data "new.txt"] }

/-- An environment where boto3 works and the upload succeeds. -/
def envUploadOk : Env :=
  { envNoBoto with boto3Available := true, uploadError := none }

/-- An environment where boto3 works but the upload raises. -/
def envUploadFail : Env :=
  { envNoBoto with boto3Available := true, uploadError := some "AccessDenied" }

/-- A request with a bucket. -/
def bktReq : PState := mkRequest "in.txt" "m.faiss" "d.pkl" (some "bkt") "igris"

/-- A request without a bucket. -/
def noBktReq : PState := mkRequest "in.txt" "m.faiss" "d.pkl" none "igris"

/-- A file with an unsupported extension. -/
def oddFile : FileEntry :=
  { path := "data.xyz", suffix := ".xyz",
    bytes := { rawText := "plain text", pdfPages := [], docxText := none } }

/-! ## Directory document loader (src/document_loader.py) -/

/-- A document segment produced by document_loader._load_single_file:
content, source path and the 1-based page number for PDF pages. -/
structure Block where
  content : String
  source : String
  page : Option Nat
deriving DecidableEq

/-- The enumerate loop of the PDF branch of _load_single_file: one block
per page whose extracted text (extract_text() or "") has non-whitespace
content, pages numbered from i+1; empty pages are skipped silently. -/
def load_single_pdf_from (path : String) : Nat → List (Option String) → List Block
  | _, [] => []
  | i, p :: rest =>
    let text := (p.getD "")
    if pyStrip text ≠ "" then
      Block.mk text path (some (i + 1)) :: load_single_pdf_from path (i + 1) rest
    else load_single_pdf_from path (i + 1) rest

/-- The PDF branch of document_loader._load_single_file. -/
def load_single_pdf (path : String) (pages : List (Option String)) : List Block :=
  load_single_pdf_from path 0 pages

/-- An ingestion environment whose input is a single PDF file with the
given pages, with pypdf importable. -/
def singlePdfEnv (path : String) (pages : List (Option String)) : Env :=
  { inputPath := some (PyPath.file { path := path, suffix := ".pdf", bytes := { rawText := "", pdfPages := pages, docxText := none } }),
    pypdfAvailable := true, docx2txtAvailable := true, boto3Available := true,
    boto3ImportMsg := "", uploadError := none, freshTempDir := "/tmp/igris_ingest_p" }

/-! ## C6: the chunking scenario -/

/-- A 2600-character plain-text content block. -/
def docBig : Doc := Doc.mk (List.replicate 2600 'a') "big.txt"

/-- A pipeline state about to enter chunk_documents with that block. -/
def chunkReq : PState :=
  { mkRequest "big.txt" "m.faiss" "d.pkl" none "igris" with raw_documents := [docBig] }

lemma fsSet_same (fs : FS α) (p : String) (c : Option (MemFile α)) :
    fsSet fs p c p = c := by
  simp [fsSet]

lemma fsSet_other (fs : FS α) (p q : String) (c : Option (MemFile α)) (h : q ≠ p) :
    fsSet fs p c q = fs q := by
  simp [fsSet, h]

/-- C1: every state of the atomic-write trace holds, at the target path,
either the previous content or the complete new snapshot — never a
partial write — and the final state holds the new snapshot.  The
hypothesis records that tempfile.mkstemp returns a fresh name distinct
from the target path (it creates a new ".tmp"-suffixed file in the same
directory). -/
theorem atomic_write_never_partial [DecidableEq α] (fs : FS α) (tmp path : String)
    (mid : MemFile α) (data : α) (h : tmp ≠ path) :
    ((atomicWriteTrace fs tmp path mid data).all
        (fun s => targetOK s path (fs path) data)) = true ∧
    atomic_write fs tmp path data path = some (MemFile.valid data) := by
  have h2 : path ≠ tmp := fun hc => h hc.symm
  constructor
  · simp [atomicWriteTrace, targetOK, List.all, fsSet_same, fsSet_other, h2]
  · simp [atomic_write, fsSet_same]

theorem atomic_write_never_partial_sample :
    ((atomicWriteTrace (fun _ => none) "m.tmp" "m" MemFile.corrupt (5 : Nat)).all
        (fun s => targetOK s "m" none 5)) = true ∧
    atomic_write (fun _ => (none : Option (MemFile Nat))) "m.tmp" "m" 5 "m" =
      some (MemFile.valid 5) :=
  atomic_write_never_partial (fun _ => none) "m.tmp" "m" MemFile.corrupt 5 (by decide)

/-- C2: load_memory returns the primary snapshot when the primary file
deserializes, falls back to the ".bak" sibling (signalling the fallback
through the fromBackup outcome, which carries the backup-restored log
line) when the primary is missing or corrupt, and returns a fresh empty
snapshot when both are unusable; being a total function it never
propagates a failure. -/
theorem load_memory_fallback (fs : FS α) (path : String) :
    (∀ d, fs path = some (MemFile.valid d) →
      load_memory fs path = LoadOutcome.fromPrimary d) ∧
    (usable (fs path) = false → ∀ d, fs (path ++ ".bak") = some (MemFile.valid d) →
      load_memory fs path = LoadOutcome.fromBackup d) ∧
    (usable (fs path) = false → usable (fs (path ++ ".bak")) = false →
      load_memory fs path = LoadOutcome.fresh) := by
  refine ⟨?_, ?_, ?_⟩
  · intro d hd
    simp [load_memory, hd]
  · intro hp d hd
    rcases hfp : fs path with _ | mf
    · simp [load_memory, hfp, hd]
    · cases mf with
      | corrupt => simp [load_memory, hfp, hd]
      | valid d0 => rw [hfp] at hp; simp [usable] at hp
  · intro hp hb
    rcases hfp : fs path with _ | mf
    · rcases hfb : fs (path ++ ".bak") with _ | mb
      · simp [load_memory, hfp, hfb]
      · cases mb with
        | corrupt => simp [load_memory, hfp, hfb]
        | valid d0 => rw [hfb] at hb; simp [usable] at hb
    · cases mf with
      | corrupt =>
        rcases hfb : fs (path ++ ".bak") with _ | mb
        · simp [load_memory, hfp, hfb]
        · cases mb with
          | corrupt => simp [load_memory, hfp, hfb]
          | valid d0 => rw [hfb] at hb; simp [usable] at hb
      | valid d0 => rw [hfp] at hp; simp [usable] at hp

theorem load_memory_fallback_sample :
    load_memory memFsPrimary "mem.pkl" = LoadOutcome.fromPrimary 1 ∧
    load_memory memFsBackup "mem.pkl" = LoadOutcome.fromBackup 2 ∧
    load_memory memFsBad "mem.pkl" = LoadOutcome.fresh :=
  ⟨(load_memory_fallback memFsPrimary "mem.pkl").1 1 (by decide),
   (load_memory_fallback memFsBackup "mem.pkl").2.1 (by decide) 2 (by decide),
   (load_memory_fallback memFsBad "mem.pkl").2.2 (by decide) (by decide)⟩

/-- C9 counterexample: the claim states that a failure to back up "is
logged"; at a concrete save where a file exists at the target path and
the backup copy fails (the except OSError branch of memory.save_memory),
the call emits no log line at all — the failure is silently swallowed by
a bare pass — while the save itself still completes and writes the new
snapshot to the target path. -/
theorem save_memory_failed_backup_unlogged :
    (save_memory memFsPrimary false "m.tmp" "mem.pkl" (7 : Nat)).2 = [] ∧
    (save_memory memFsPrimary false "m.tmp" "mem.pkl" (7 : Nat)).1 "mem.pkl" =
      some (MemFile.valid 7) := by
  constructor
  · rfl
  · rfl

/-- C9 (amended): when a file already exists at the target path,
save_memory first copies it to path ++ ".bak" before the new snapshot is
written; the backup is best-effort — a failure to back up is silently
ignored (the except OSError branch is a bare pass, nothing is logged)
and does not abort the save, which still writes the new snapshot, and a
failed backup leaves the backup path untouched; save_memory produces no
log output on any path.  The hypotheses record that the fresh temporary
file is distinct from both the target and the backup path, and that
appending ".bak" changes the path. -/
theorem save_memory_backup_best_effort (fs : FS α) (backupOk : Bool)
    (tmp path : String) (msgs : α) (h1 : tmp ≠ path) (h2 : tmp ≠ path ++ ".bak")
    (h3 : path ≠ path ++ ".bak") :
    (save_memory fs backupOk tmp path msgs).1 path = some (MemFile.valid msgs) ∧
    (∀ c, fs path = some c → backupOk = true →
      (save_memory fs backupOk tmp path msgs).1 (path ++ ".bak") = some c) ∧
    (backupOk = false →
      (save_memory fs backupOk tmp path msgs).1 (path ++ ".bak") = fs (path ++ ".bak")) ∧
    (save_memory fs backupOk tmp path msgs).2 = [] := by
  have hb1 : path ++ ".bak" ≠ tmp := fun hc => h2 hc.symm
  have hb2 : path ++ ".bak" ≠ path := fun hc => h3 hc.symm
  refine ⟨?_, ?_, ?_, rfl⟩
  · cases hfp : fs path with
    | none => simp [save_memory, hfp, atomic_write, fsSet_same]
    | some c =>
      cases backupOk with
      | false => simp [save_memory, hfp, atomic_write, fsSet_same]
      | true => simp [save_memory, hfp, atomic_write, fsSet_same]
  · intro c hc hok
    simp [save_memory, hc, hok, atomic_write, fsSet_other, fsSet_same, hb1, hb2]
  · intro hok
    cases hfp : fs path with
    | none => simp [save_memory, hfp, atomic_write, fsSet_other, hb1, hb2]
    | some c => simp [save_memory, hfp, hok, atomic_write, fsSet_other, hb1, hb2]

theorem save_memory_backup_best_effort_sample :
    (save_memory memFsPrimary true "m.tmp" "mem.pkl" 7).1 "mem.pkl" =
      some (MemFile.valid 7) ∧
    (save_memory memFsPrimary true "m.tmp" "mem.pkl" 7).1 "mem.pkl.bak" =
      some (MemFile.valid 1) ∧
    (save_memory memFsPrimary false "m.tmp" "mem.pkl" 7).1 "mem.pkl.bak" = none ∧
    (save_memory memFsPrimary true "m.tmp" "mem.pkl" 7).2 = [] := by
  have h := save_memory_backup_best_effort memFsPrimary true "m.tmp" "mem.pkl" 7
    (by decide) (by decide) (by decide)
  have h0 := save_memory_backup_best_effort memFsPrimary false "m.tmp" "mem.pkl" 7
    (by decide) (by decide) (by decide)
  refine ⟨h.1, ?_, ?_, h.2.2.2⟩
  · have := h.2.1 (MemFile.valid 1) (by decide) rfl
    simpa using this
  · have := h0.2.2.1 rfl
    simpa [memFsPrimary] using this

lemma splitOnSep_no_newline : ∀ (l acc : List Char), '\n' ∉ l →
    splitOnSep acc l = [acc.reverse ++ l]
  | [], acc, _ => by simp [splitOnSep]
  | [c], acc, _ => by simp [splitOnSep]
  | c1 :: c2 :: rest, acc, h => by
    have h1 : c1 ≠ '\n' := by intro hc; exact h (by simp [hc])
    have h2 : '\n' ∉ c2 :: rest := by intro hc; exact h (List.mem_cons_of_mem _ hc)
    rw [splitOnSep, if_neg (by tauto), splitOnSep_no_newline (c2 :: rest) (c1 :: acc) h2]
    simp

lemma dropWhile_ws_replicate (n : Nat) :
    List.dropWhile Char.isWhitespace (List.replicate n 'a') = List.replicate n 'a' := by
  cases n with
  | zero => simp
  | succ m =>
    rw [List.replicate_succ, List.dropWhile_cons]
    simp [(by decide : 'a'.isWhitespace = false)]

lemma pyStripChars_replicate (n : Nat) :
    pyStripChars (List.replicate n 'a') = List.replicate n 'a' := by
  unfold pyStripChars
  rw [dropWhile_ws_replicate, List.reverse_replicate, dropWhile_ws_replicate,
    List.reverse_replicate]

/-- The configured splitter, applied to a 2600-character block that holds
no blank-line separator, returns the whole block as one chunk: the
separator split yields a single oversized piece and the merge phase emits
it unchanged. -/
lemma character_split_text_replicate_2600 :
    character_split_text 800 120 (List.replicate 2600 'a') =
      [List.replicate 2600 'a'] := by
  have hnl : '\n' ∉ List.replicate 2600 'a' := by
    intro h
    exact absurd (List.eq_of_mem_replicate h) (by decide)
  have hne : List.replicate 2600 'a' ≠ ([] : List Char) := by
    intro h
    have hlen := congrArg List.length h
    rw [List.length_replicate, List.length_nil] at hlen
    exact absurd hlen (by norm_num)
  unfold character_split_text
  dsimp only
  rw [splitOnSep_no_newline _ _ hnl]
  rw [List.reverse_nil, List.nil_append, List.filter_cons, List.filter_nil,
    if_pos (decide_eq_true hne)]
  unfold mergeSplits
  rw [List.foldl_cons, List.foldl_nil]
  unfold mergeStep
  simp only [ne_eq, not_true_eq_false, if_false, List.length_replicate]
  norm_num
  unfold mergeFinish joinDocs
  dsimp only
  simp only [List.intercalate, List.intersperse_singleton, List.flatten_cons,
    List.flatten_nil, List.append_nil, pyStripChars_replicate]
  rw [if_neg hne]
  dsimp only [List.nil_append]

lemma route_on_error_ne_end {s : PState} {ok : String}
    (h : route_on_error s ok ≠ ENDNODE) : s.error = none := by
  unfold route_on_error at h
  cases he : s.error with
  | none => rfl
  | some m => rw [he] at h; simp at h

lemma stageName_ne_end (st : Stage) : stageName st ≠ ENDNODE := by
  cases st <;> decide

lemma runSeq_step_continue (impl : Stage → PState → World → PState × World)
    (st nxt : Stage) (rest : List Stage) (s : PState) (w : World)
    (r : PState × World) (hr : impl st s w = r) (herr : r.1.error = none) :
    runSeq impl (st :: nxt :: rest) s w =
      ((runSeq impl (nxt :: rest) r.1 r.2).1,
       (runSeq impl (nxt :: rest) r.1 r.2).2.1,
       (st, r.1) :: (runSeq impl (nxt :: rest) r.1 r.2).2.2) := by
  rw [runSeq]
  dsimp only
  rw [hr]
  rw [if_neg]
  unfold route_on_error
  rw [herr]
  simp [stageName_ne_end nxt]

lemma runSeq_step_stop (impl : Stage → PState → World → PState × World)
    (st nxt : Stage) (rest : List Stage) (s : PState) (w : World)
    (r : PState × World) (hr : impl st s w = r) (herr : r.1.error.isSome = true) :
    runSeq impl (st :: nxt :: rest) s w = (r.1, r.2, [(st, r.1)]) := by
  rw [runSeq]
  dsimp only
  rw [hr]
  rw [if_pos]
  unfold route_on_error
  rw [herr]
  simp

lemma runSeq_last (impl : Stage → PState → World → PState × World)
    (st : Stage) (s : PState) (w : World) (r : PState × World)
    (hr : impl st s w = r) :
    runSeq impl [st] s w = (r.1, r.2, [(st, r.1)]) := by
  rw [runSeq]
  dsimp only
  rw [hr, if_pos rfl]

lemma runSeq_dropLast_error_none (impl : Stage → PState → World → PState × World) :
    ∀ (stages : List Stage) (s : PState) (w : World) (p : Stage × PState),
      p ∈ (runSeq impl stages s w).2.2.dropLast → p.2.error = none := by
  intro stages
  induction stages with
  | nil => intro s w p hp; simp [runSeq] at hp
  | cons st rest ih =>
    intro s w p hp
    cases rest with
    | nil => simp [runSeq] at hp
    | cons nxt rest2 =>
      rw [runSeq] at hp
      dsimp only at hp
      split at hp
      · simp at hp
      · rename_i hroute
        have herr : (impl st s w).1.error = none :=
          route_on_error_ne_end (by exact hroute)
        cases htr : (runSeq impl (nxt :: rest2) (impl st s w).1 (impl st s w).2).2.2 with
        | nil => rw [htr] at hp; simp at hp
        | cons q qs =>
          rw [htr] at hp
          rw [List.dropLast_cons₂] at hp
          rcases List.mem_cons.mp hp with hpe | hpm
          · rw [hpe]; exact herr
          · exact ih (impl st s w).1 (impl st s w).2 p (by rw [htr]; exact hpm)

/-- C3: (1) in any run of the ingestion graph, every executed stage other
than the last one executed left the error slot empty — equivalently, as
soon as a stage sets the error slot the run transitions to the terminal
state and no later stage (cleanup included) runs; (2) concretely, when
the pipeline reaches the publish stage and boto3 is unavailable while a
bucket is requested, the run ends with the upload error, cleanup is not
executed, and the temporary directory created by prepare_artifact is
still on disk in the final world. -/
theorem error_short_circuits_and_publish_leaks :
    (∀ (impl : Stage → PState → World → PState × World) (s0 : PState) (w0 : World)
        (p : Stage × PState),
      p ∈ (runGraph impl s0 w0).2.2.dropLast → p.2.error = none) ∧
    (∀ (env : Env) (s0 : PState) (w0 : World) (docs : List Doc) (b : String),
      s0.error = none → env.inputPath.isSome = true →
      loadedDocs env = Except.ok docs → docs ≠ [] →
      s0.bucket_name = some b → b ≠ "" → env.boto3Available = false →
      (runGraph (nodesOf env) s0 w0).1.error =
        some ("S3 upload requested but boto3 is not installed: " ++ env.boto3ImportMsg) ∧
      Stage.cleanup ∉ ((runGraph (nodesOf env) s0 w0).2.2.map Prod.fst) ∧
      env.freshTempDir ∈ (runGraph (nodesOf env) s0 w0).2.1.tempDirs) := by
  constructor
  · intro impl s0 w0 p hp
    exact runSeq_dropLast_error_none impl stageSeq s0 w0 p hp
  · intro env s0 w0 docs b h0 h1 h2 h3 h4 h5 h6
    obtain ⟨pp, hpp⟩ := Option.isSome_iff_exists.mp h1
    have e1 : nodesOf env Stage.validate s0 w0 = (s0, w0) := by
      simp [nodesOf, node_validate_input, hpp]
    have e2 : nodesOf env Stage.load s0 w0 =
        ({ s0 with raw_documents := docs }, w0) := by
      simp [nodesOf, node_load_documents, h2, h3]
    have e3 : nodesOf env Stage.chunk { s0 with raw_documents := docs } w0 =
        ({ s0 with raw_documents := docs, chunks := split_documents docs }, w0) := by
      simp [nodesOf, node_chunk_documents]
    have e4 : nodesOf env Stage.build
        { s0 with raw_documents := docs, chunks := split_documents docs } w0 =
        ({ s0 with raw_documents := docs, chunks := split_documents docs, vector_store := some (priorChunks (w0.vi s0.memory_file) ++ split_documents docs) },
          setCs (setVi w0 s0.memory_file (Persisted.stored (priorChunks (w0.vi s0.memory_file) ++ split_documents docs))) s0.docs_file (Persisted.stored (priorChunks (w0.cs s0.docs_file) ++ split_documents docs))) := by
      simp only [nodesOf, node_build_index]
      cases hvi : w0.vi s0.memory_file <;> cases hcs : w0.cs s0.docs_file <;>
        simp [priorChunks, hvi, hcs]
    rw [runGraph, stageSeq]
    rw [runSeq_step_continue _ _ _ _ _ _ _ e1 h0]
    rw [runSeq_step_continue _ _ _ _ _ _ _ e2 h0]
    rw [runSeq_step_continue _ _ _ _ _ _ _ e3 h0]
    rw [runSeq_step_continue _ _ _ _ _ _ _ e4 h0]
    obtain ⟨S4, hS4⟩ : ∃ s4, ({ s0 with raw_documents := docs, chunks := split_documents docs, vector_store := some (priorChunks (w0.vi s0.memory_file) ++ split_documents docs) } : PState) = s4 := ⟨_, rfl⟩
    obtain ⟨W4, hW4⟩ : ∃ w4, setCs (setVi w0 s0.memory_file (Persisted.stored (priorChunks (w0.vi s0.memory_file) ++ split_documents docs))) s0.docs_file (Persisted.stored (priorChunks (w0.cs s0.docs_file) ++ split_documents docs)) = w4 := ⟨_, rfl⟩
    rw [hS4, hW4]
    have hS4err : S4.error = none := by rw [← hS4]; exact h0
    have hS4b : S4.bucket_name = some b := by rw [← hS4]; exact h4
    have e5 : nodesOf env Stage.prepare S4 W4 =
        ({ S4 with artifact_path := some (env.freshTempDir ++ "/igris_artifacts.zip"), temp_dir := some env.freshTempDir },
          { W4 with tempDirs := env.freshTempDir :: W4.tempDirs }) := by
      simp [nodesOf, node_prepare_artifact]
    rw [runSeq_step_continue _ _ _ _ _ _ _ e5 hS4err]
    have e6 : nodesOf env Stage.upload
        { S4 with artifact_path := some (env.freshTempDir ++ "/igris_artifacts.zip"), temp_dir := some env.freshTempDir }
        { W4 with tempDirs := env.freshTempDir :: W4.tempDirs } =
        ({ S4 with artifact_path := some (env.freshTempDir ++ "/igris_artifacts.zip"), temp_dir := some env.freshTempDir, error := some ("S3 upload requested but boto3 is not installed: " ++ env.boto3ImportMsg) },
          { W4 with tempDirs := env.freshTempDir :: W4.tempDirs }) := by
      simp [nodesOf, node_upload_to_s3, hS4b, h5, h6]
    rw [runSeq_step_stop _ _ _ _ _ _ _ e6 rfl]
    refine ⟨rfl, ?_, ?_⟩
    · simp only [List.map_cons, List.map_nil]
      decide
    · simp

/-- C5: when the input path does not exist, the run executes only the
validate stage, ends with the not-found error naming the path, and the
on-disk world (vector indexes, chunk stores, temporary directories) is
returned unchanged. -/
theorem missing_input_short_circuits (env : Env) (s0 : PState) (w0 : World)
    (h : env.inputPath = none) :
    (runGraph (nodesOf env) s0 w0).2.1 = w0 ∧
    (runGraph (nodesOf env) s0 w0).2.2.map Prod.fst = [Stage.validate] ∧
    (runGraph (nodesOf env) s0 w0).1.error =
      some ("Input path not found: " ++ s0.input_path) := by
  have e1 : nodesOf env Stage.validate s0 w0 =
      ({ s0 with error := some ("Input path not found: " ++ s0.input_path) }, w0) := by
    simp [nodesOf, node_validate_input, h]
  rw [runGraph, stageSeq]
  rw [runSeq_step_stop _ _ _ _ _ _ _ e1 rfl]
  exact ⟨rfl, rfl, rfl⟩

theorem error_short_circuits_and_publish_leaks_sample :
    (runGraph (nodesOf envNoBoto) (mkRequest "notes.txt" "m.faiss" "d.pkl" (some "bkt") "igris") baseWorld).1.error =
      some ("S3 upload requested but boto3 is not installed: " ++ "No module named boto3") ∧
    Stage.cleanup ∉ ((runGraph (nodesOf envNoBoto) (mkRequest "notes.txt" "m.faiss" "d.pkl" (some "bkt") "igris") baseWorld).2.2.map Prod.fst) ∧
    "/tmp/igris_ingest_b" ∈ (runGraph (nodesOf envNoBoto) (mkRequest "notes.txt" "m.faiss" "d.pkl" (some "bkt") "igris") baseWorld).2.1.tempDirs :=
  error_short_circuits_and_publish_leaks.2 envNoBoto
    (mkRequest "notes.txt" "m.faiss" "d.pkl" (some "bkt") "igris") baseWorld
    [Doc.mk "hi".data "notes.txt"] "bkt" rfl rfl rfl (by decide) rfl (by decide) rfl

theorem missing_input_short_circuits_sample :
    (runGraph (nodesOf envMissing) (mkRequest "gone.txt" "m.faiss" "d.pkl" none "igris") baseWorld).2.1 = baseWorld ∧
    (runGraph (nodesOf envMissing) (mkRequest "gone.txt" "m.faiss" "d.pkl" none "igris") baseWorld).2.2.map Prod.fst = [Stage.validate] ∧
    (runGraph (nodesOf envMissing) (mkRequest "gone.txt" "m.faiss" "d.pkl" none "igris") baseWorld).1.error =
      some ("Input path not found: " ++ "gone.txt") :=
  missing_input_short_circuits envMissing
    (mkRequest "gone.txt" "m.faiss" "d.pkl" none "igris") baseWorld rfl

/-- C4: node_build_index recovers locally from index and store corruption:
a corrupt (unopenable) vector index is replaced by a fresh index holding
only the new chunks (prior content lost), an openable one is extended
with the new chunks; a corrupt or absent chunk store is treated as empty,
a readable one keeps its content, and in every case the store is
rewritten with the concatenation of the prior content and the new
chunks; the node itself reports no error. -/
theorem build_index_fallback_and_append (s : PState) (w : World) :
    ((w.vi s.memory_file = Persisted.corrupt →
      (node_build_index s w).2.vi s.memory_file = Persisted.stored s.chunks) ∧
     (∀ prior, w.vi s.memory_file = Persisted.stored prior →
      (node_build_index s w).2.vi s.memory_file = Persisted.stored (prior ++ s.chunks)) ∧
     (w.vi s.memory_file = Persisted.absent →
      (node_build_index s w).2.vi s.memory_file = Persisted.stored s.chunks)) ∧
    ((w.cs s.docs_file = Persisted.corrupt →
      (node_build_index s w).2.cs s.docs_file = Persisted.stored s.chunks) ∧
     (w.cs s.docs_file = Persisted.absent →
      (node_build_index s w).2.cs s.docs_file = Persisted.stored s.chunks) ∧
     (∀ prior, w.cs s.docs_file = Persisted.stored prior →
      (node_build_index s w).2.cs s.docs_file = Persisted.stored (prior ++ s.chunks))) ∧
    (node_build_index s w).1.error = s.error := by
  refine ⟨⟨?_, ?_, ?_⟩, ⟨?_, ?_, ?_⟩, ?_⟩
  · intro h; simp [node_build_index, setVi, setCs, h]
  · intro prior h; simp [node_build_index, setVi, setCs, h]
  · intro h; simp [node_build_index, setVi, setCs, h]
  · intro h; simp [node_build_index, setVi, setCs, h]
  · intro h; simp [node_build_index, setVi, setCs, h]
  · intro prior h; simp [node_build_index, setVi, setCs, h]
  · simp [node_build_index]

theorem build_index_fallback_and_append_sample :
    (node_build_index buildReq corruptWorld).2.vi "m.faiss" =
      Persisted.stored [Doc.mk "n".data "new.txt"] ∧
    (node_build_index buildReq storedWorld).2.vi "m.faiss" =
      Persisted.stored ([Doc.mk "p".data "old.txt"] ++ [Doc.mk "n".data "new.txt"]) ∧
    (node_build_index buildReq baseWorld).2.vi "m.faiss" =
      Persisted.stored [Doc.mk "n".data "new.txt"] ∧
    (node_build_index buildReq corruptWorld).2.cs "d.pkl" =
      Persisted.stored [Doc.mk "n".data "new.txt"] ∧
    (node_build_index buildReq storedWorld).2.cs "d.pkl" =
      Persisted.stored ([Doc.mk "p".data "old.txt"] ++ [Doc.mk "n".data "new.txt"]) ∧
    (node_build_index buildReq corruptWorld).1.error = none :=
  ⟨(build_index_fallback_and_append buildReq corruptWorld).1.1 rfl,
   (build_index_fallback_and_append buildReq storedWorld).1.2.1 _ rfl,
   (build_index_fallback_and_append buildReq baseWorld).1.2.2 rfl,
   (build_index_fallback_and_append buildReq corruptWorld).2.1.1 rfl,
   (build_index_fallback_and_append buildReq storedWorld).2.1.2.2 _ rfl,
   (build_index_fallback_and_append buildReq corruptWorld).2.2⟩

/-- C7: the publish stage errors exactly when a (truthy) bucket is given
and boto3 is missing or the upload raises; a falsy bucket (None or the
empty string, both falsy in Python) makes it a no-op success that sets
the location to None; the boto3 error names the missing dependency; an
upload failure is wrapped; a successful upload yields the s3 URI from the
bucket and the key prefix.rstrip(slash) ++ "/igris_artifacts.zip". -/
theorem upload_error_characterization (env : Env) (s : PState) (w : World)
    (h0 : s.error = none) :
    (((node_upload_to_s3 env s w).1.error).isSome = true ↔
      (truthy s.bucket_name = true ∧
        (env.boto3Available = false ∨ env.uploadError.isSome = true))) ∧
    (truthy s.bucket_name = false →
      (node_upload_to_s3 env s w).1 = { s with cloud_uri := some none }) ∧
    (truthy s.bucket_name = true → env.boto3Available = false →
      (node_upload_to_s3 env s w).1.error =
        some ("S3 upload requested but boto3 is not installed: " ++ env.boto3ImportMsg)) ∧
    (∀ b e, s.bucket_name = some b → b ≠ "" → env.boto3Available = true →
      env.uploadError = some e →
      (node_upload_to_s3 env s w).1.error = some ("S3 upload failed: " ++ e)) ∧
    (∀ b, s.bucket_name = some b → b ≠ "" → env.boto3Available = true →
      env.uploadError = none →
      (node_upload_to_s3 env s w).1.cloud_uri =
        some (some ("s3://" ++ b ++ "/" ++ (pyRstripSlash ((s.cloudPref).getD "igris") ++ "/igris_artifacts.zip"))) ∧
      (node_upload_to_s3 env s w).1.error = none) := by
  rcases hb : s.bucket_name with _ | b
  · simp [node_upload_to_s3, truthy, hb, h0]
  · by_cases hbe : b = ""
    · simp [node_upload_to_s3, truthy, hb, hbe, h0]
      intro b2 e2 hbb hne
      exact absurd hbb.symm hne
    · cases hbo : env.boto3Available
      · simp [node_upload_to_s3, truthy, hb, hbe, hbo, h0]
      · rcases hue : env.uploadError with _ | e2
        · simp [node_upload_to_s3, truthy, hb, hbe, hbo, hue, h0]
        · simp [node_upload_to_s3, truthy, hb, hbe, hbo, hue, h0]

theorem upload_error_characterization_sample :
    (node_upload_to_s3 envNoBoto noBktReq baseWorld).1 =
      { noBktReq with cloud_uri := some none } ∧
    (node_upload_to_s3 envNoBoto bktReq baseWorld).1.error =
      some ("S3 upload requested but boto3 is not installed: " ++ "No module named boto3") ∧
    (node_upload_to_s3 envUploadFail bktReq baseWorld).1.error =
      some ("S3 upload failed: " ++ "AccessDenied") ∧
    (node_upload_to_s3 envUploadOk bktReq baseWorld).1.cloud_uri =
      some (some ("s3://" ++ "bkt" ++ "/" ++ (pyRstripSlash "igris" ++ "/igris_artifacts.zip"))) :=
  ⟨(upload_error_characterization envNoBoto noBktReq baseWorld rfl).2.1 rfl,
   (upload_error_characterization envNoBoto bktReq baseWorld rfl).2.2.1 rfl rfl,
   (upload_error_characterization envUploadFail bktReq baseWorld rfl).2.2.2.1 "bkt"
     "AccessDenied" rfl (by decide) rfl rfl,
   ((upload_error_characterization envUploadOk bktReq baseWorld rfl).2.2.2.2 "bkt"
     rfl (by decide) rfl rfl).1⟩

/-- C10: a single-file input path is returned by the path iterator with no
extension check (the supported-extension filter applies only to directory
enumeration), and a file whose lower-cased extension is unsupported is
dispatched to the plain-text reader. -/
theorem single_file_read_regardless (e : FileEntry) (env : Env)
    (h : SUPPORTED_EXTENSIONS.contains (pyLower e.suffix) = false) :
    iter_paths (PyPath.file e) = [e] ∧
    read_file env e = Except.ok e.bytes.rawText ∧
    (∀ es, iter_paths (PyPath.dir es) =
      es.filter (fun x => SUPPORTED_EXTENSIONS.contains (pyLower x.suffix))) := by
  refine ⟨rfl, ?_, fun es => rfl⟩
  have hp : pyLower e.suffix ≠ ".pdf" := by
    intro hc
    rw [hc] at h
    exact absurd h (by decide)
  have hd : pyLower e.suffix ≠ ".docx" := by
    intro hc
    rw [hc] at h
    exact absurd h (by decide)
  unfold read_file
  dsimp only
  rw [if_neg hp, if_neg hd]

theorem single_file_read_regardless_sample :
    iter_paths (PyPath.file oddFile) = [oddFile] ∧
    read_file envUploadOk oddFile = Except.ok "plain text" ∧
    iter_paths (PyPath.dir [oddFile]) =
      [oddFile].filter (fun x => SUPPORTED_EXTENSIONS.contains (pyLower x.suffix)) :=
  ⟨(single_file_read_regardless oddFile envUploadOk (by decide)).1,
   (single_file_read_regardless oddFile envUploadOk (by decide)).2.1,
   (single_file_read_regardless oddFile envUploadOk (by decide)).2.2 [oddFile]⟩

lemma load_single_pdf_from_length (path : String) :
    ∀ (pages : List (Option String)) (n : Nat),
      (load_single_pdf_from path n pages).length =
        (pages.filter (fun p => pyStrip (p.getD "") ≠ "")).length := by
  intro pages
  induction pages with
  | nil => intro n; rfl
  | cons p rest ih =>
    intro n
    rw [load_single_pdf_from]
    by_cases hp : pyStrip (p.getD "") ≠ ""
    · rw [if_pos hp, List.filter_cons, if_pos (decide_eq_true hp)]
      simp [ih]
    · rw [if_neg hp, List.filter_cons, if_neg]
      · exact ih (n + 1)
      · simp only [decide_eq_true_eq]
        exact hp

lemma load_single_pdf_from_all_empty (path : String) :
    ∀ (pages : List (Option String)) (n : Nat),
      (∀ p ∈ pages, pyStrip (p.getD "") = "") →
      load_single_pdf_from path n pages = [] := by
  intro pages
  induction pages with
  | nil => intro n _; rfl
  | cons p rest ih =>
    intro n h
    rw [load_single_pdf_from]
    rw [if_neg (by simp [h p (List.mem_cons_self p rest)])]
    exact ih (n + 1) (fun q hq => h q (List.mem_cons_of_mem p hq))

/-- C8 counterexample: the ingestion workflow reads a two-page PDF (both
pages non-empty) into a single content block — the whole file joined with
newlines — not one block per page. -/
theorem pdf_one_block_per_page_counterexample :
    loadedDocs (singlePdfEnv "doc.pdf" [some "hello", some "world"]) =
      Except.ok [Doc.mk ("hello\nworld").data "doc.pdf"] ∧
    [some "hello", some "world"].length = 2 := by
  constructor
  · rfl
  · rfl

/-- C8 amended: the directory loader (document_loader._load_single_file)
produces one block per PDF page whose trimmed extracted text is
non-empty, dropping empty pages silently, so an all-empty (scanned) PDF
yields zero blocks and no error; the ingestion workflow reader
(ingest_workflow._read_pdf) instead joins all pages into a single content
block per PDF file, which is kept only when its stripped text is
non-empty. -/
theorem pdf_one_block_per_page_amended (path : String) (pages : List (Option String)) :
    (load_single_pdf path pages).length =
      (pages.filter (fun p => pyStrip (p.getD "") ≠ "")).length ∧
    ((∀ p ∈ pages, pyStrip (p.getD "") = "") → load_single_pdf path pages = []) ∧
    loadedDocs (singlePdfEnv path pages) =
      Except.ok (if pyStrip (read_pdf_pages pages) = "" then []
        else [Doc.mk (read_pdf_pages pages).data path]) := by
  refine ⟨load_single_pdf_from_length path pages 0, ?_, ?_⟩
  · intro h
    exact load_single_pdf_from_all_empty path pages 0 h
  · have h1 : loadedDocs (singlePdfEnv path pages) =
        readDocsLoop (singlePdfEnv path pages) [{ path := path, suffix := ".pdf", bytes := { rawText := "", pdfPages := pages, docxText := none } }] [] := rfl
    have hrf : read_file (singlePdfEnv path pages) { path := path, suffix := ".pdf", bytes := { rawText := "", pdfPages := pages, docxText := none } } =
        Except.ok (read_pdf_pages pages) := rfl
    rw [h1, readDocsLoop, hrf]
    dsimp only
    by_cases hs : pyStrip (read_pdf_pages pages) = ""
    · rw [if_neg (fun hcon => hcon hs), if_pos hs]
      rfl
    · rw [if_pos hs, if_neg hs]
      rfl

theorem pdf_one_block_per_page_amended_sample :
    (load_single_pdf "scan.pdf" [some " ", none]).length =
      ([some " ", none].filter (fun p => pyStrip (p.getD "") ≠ "")).length ∧
    load_single_pdf "scan.pdf" [some " ", none] = [] ∧
    loadedDocs (singlePdfEnv "scan.pdf" [some " ", none]) =
      Except.ok (if pyStrip (read_pdf_pages [some " ", none]) = "" then []
        else [Doc.mk (read_pdf_pages [some " ", none]).data "scan.pdf"]) :=
  ⟨(pdf_one_block_per_page_amended "scan.pdf" [some " ", none]).1,
   (pdf_one_block_per_page_amended "scan.pdf" [some " ", none]).2.1 (by decide),
   (pdf_one_block_per_page_amended "scan.pdf" [some " ", none]).2.2⟩

lemma node_chunk_big :
    (node_chunk_documents chunkReq baseWorld).1.chunks =
      [Doc.mk (List.replicate 2600 'a') "big.txt"] := by
  show split_documents [docBig] = _
  unfold split_documents
  simp only [List.map_cons, List.map_nil]
  rw [show docBig.content = List.replicate 2600 'a' from rfl]
  rw [show docBig.source = "big.txt" from rfl]
  rw [character_split_text_replicate_2600]
  rfl

/-- C6 counterexample: chunking the single 2600-character block with the
configured splitter (chunk_size 800, chunk_overlap 120) yields exactly 1
chunk, not the 4 overlapping 800-character chunks the scenario expects:
the CharacterTextSplitter splits only on the blank-line separator, and a
block without one is emitted whole. -/
theorem chunk_2600_counterexample :
    ((node_chunk_documents chunkReq baseWorld).1.chunks).length = 1 ∧
    ((node_chunk_documents chunkReq baseWorld).1.chunks).length ≠ 4 := by
  rw [node_chunk_big]
  exact ⟨rfl, by decide⟩

/-- C6 amended: ingesting a single 2600-character plain-text block with
no blank-line separator through chunk_documents yields exactly one chunk,
namely the whole 2600-character block (longer than the nominal 800), with
its source metadata preserved. -/
theorem chunk_2600_amended :
    (node_chunk_documents chunkReq baseWorld).1.chunks =
      [Doc.mk (List.replicate 2600 'a') "big.txt"] ∧
    ((node_chunk_documents chunkReq baseWorld).1.chunks).map
      (fun c => c.content.length) = [2600] := by
  refine ⟨node_chunk_big, ?_⟩
  rw [node_chunk_big]
  simp only [List.map_cons, List.map_nil]
  rw [List.length_replicate]

end Igris

